import Mathlib

/-!
Verification development for the dav1d JNI wrapper
(`libraries/decoder_av1/src/main/jni/dav1d_jni.cc`).

The definitions below are a shallow embedding of the wrapper's data model and
operations: the picture-allocator layout arithmetic, the two mutex-guarded
reclaim queues (`unused_cookies` and `unused_picture_allocator_data`, both
`std::vector`s pushed with `emplace_back` and drained from the back), the
free callbacks, and the JNI entry points (`dav1dInit`, `dav1dDecode`,
`dav1dGetFrame`, `dav1dFlush`, `dav1dClose`, `dav1dReleaseFrame`,
`dav1dCheckError`).  C `int` arithmetic is modelled on `Nat`/`Int` with the
32-bit masks written out explicitly; JNI / libdav1d calls whose results the
wrapper merely branches on are modelled as oracle inputs.
-/

namespace Dav1dJni

/-! ### Constants from the source -/

/-- Return code `kStatusError` (dav1d_jni.cc). -/
def kStatusError : Int := 0

/-- Return code `kStatusOk` (dav1d_jni.cc). -/
def kStatusOk : Int := 1

/-- Return code `kStatusDecodeOnly` (dav1d_jni.cc). -/
def kStatusDecodeOnly : Int := 2

/-- Return code `kStatusEagain` (dav1d_jni.cc). -/
def kStatusEagain : Int := 3

/-- JNI status `kJniStatusOk`. -/
def kJniStatusOk : Int := 0

/-- JNI status `kJniStatusOutOfMemory`. -/
def kJniStatusOutOfMemory : Int := -1

/-- JNI status `kJniStatusHighBitDepthNotSupportedWithYuv`. -/
def kJniStatusHighBitDepthNotSupportedWithYuv : Int := -4

/-- JNI status `kJniStatusBufferResizeError`. -/
def kJniStatusBufferResizeError : Int := -5

/-- JNI status `kJniStatusNeonNotSupported`. -/
def kJniStatusNeonNotSupported : Int := -6

/-- JNI status `kJniStatusDecoderInitFailed`. -/
def kJniStatusDecoderInitFailed : Int := -8

/-- JNI status `kJniStatusBufferInitError`. -/
def kJniStatusBufferInitError : Int := -9

/-- Output mode `kOutputModeYuv`. -/
def kOutputModeYuv : Int := 0

/-- Output mode `kOutputModeSurfaceYuv`. -/
def kOutputModeSurfaceYuv : Int := 1

/-- `DAV1D_PICTURE_ALIGNMENT` from the libdav1d header `dav1d/picture.h`
(external library, value 64): required alignment of picture buffers. -/
def DAV1D_PICTURE_ALIGNMENT : Nat := 64

/-- `EAGAIN` from the Linux / bionic `errno.h` (value 11). -/
def EAGAIN : Int := 11

/-- `DAV1D_ERR(e) = -(e)` from the libdav1d header `dav1d/common.h`. -/
def DAV1D_ERR (e : Int) : Int := -e

/-- The four `Dav1dPixelLayout` values from `dav1d/headers.h`. -/
inductive Dav1dPixelLayout
  | I400
  | I420
  | I422
  | I444
  deriving DecidableEq, Repr

export Dav1dPixelLayout (I400 I420 I422 I444)

/-! ### Bit-arithmetic bridge lemmas

The allocator computes with C `int` bit masks; these lemmas relate the masks
to division and remainder so the layout theorems can be stated the way the
spec phrases them. -/

/-- `x & 1023` is `x mod 1024` (the stride-bump test `!(y_stride & 1023)`). -/
theorem and_1023_eq_mod (x : Nat) : x &&& 1023 = x % 1024 := by
  have h := Nat.and_pow_two_sub_one_eq_mod x 10
  norm_num at h
  exact h

/-- For values in the 32-bit range, `n & 0xFFFFFF80` (the C expression
`n & ~127` on a 32-bit `int`) clears the low seven bits, i.e. rounds down to
a multiple of 128. -/
theorem and_mask128_eq (n : Nat) (h : n < 2 ^ 32) :
    n &&& 4294967168 = 128 * (n / 128) := by
  have hmask : (4294967168 : Nat) = (2 ^ 25 - 1) <<< 7 := by
    norm_num [Nat.shiftLeft_eq]
  have hrhs : 128 * (n / 128) = 2 ^ 7 * (n >>> 7) := by
    rw [Nat.shiftRight_eq_div_pow]
    norm_num
  apply Nat.eq_of_testBit_eq
  intro i
  rw [hmask, hrhs, Nat.testBit_and, Nat.testBit_shiftLeft,
    Nat.testBit_two_pow_sub_one, Nat.testBit_mul_pow_two]
  by_cases hi : 7 ≤ i
  · by_cases hi32 : i < 32
    · have h25 : i - 7 < 25 := by omega
      have h77 : 7 + (i - 7) = i := by omega
      simp [hi, h25, Nat.testBit_shiftRight, h77]
    · have hbig : n.testBit i = false := by
        apply Nat.testBit_lt_two_pow
        calc n < 2 ^ 32 := h
          _ ≤ 2 ^ i := Nat.pow_le_pow_right (by norm_num) (by omega)
      have h25 : ¬(i - 7 < 25) := by omega
      simp [hi, h25, hbig]
  · simp [hi]

/-! ### Allocator layout arithmetic (`dav1d_picture_allocator`)

Straight transcription of the sizing math at the top of
`dav1d_picture_allocator`:

    const int hbd = p->p.bpc > 8;
    const int aligned_w = (p->p.w + 127) & ~127;
    const int aligned_h = (p->p.h + 127) & ~127;
    const int has_chroma = p->p.layout != DAV1D_PIXEL_LAYOUT_I400;
    const int ss_ver = p->p.layout == DAV1D_PIXEL_LAYOUT_I420;
    const int ss_hor = p->p.layout != DAV1D_PIXEL_LAYOUT_I444;
    ptrdiff_t y_stride = aligned_w << hbd;
    ptrdiff_t uv_stride = has_chroma ? y_stride >> ss_hor : 0;
    if (!(y_stride & 1023)) y_stride += DAV1D_PICTURE_ALIGNMENT;
    if (!(uv_stride & 1023) && has_chroma) uv_stride += DAV1D_PICTURE_ALIGNMENT;
    const size_t y_sz = y_stride * aligned_h;
    const size_t uv_sz = uv_stride * (aligned_h >> ss_ver);
    const size_t pic_size = y_sz + 2 * uv_sz;
    const size_t total_size = pic_size + 2 * DAV1D_PICTURE_ALIGNMENT;
-/

/-- `hbd = p->p.bpc > 8`. -/
def hbd (bpc : Nat) : Nat := if 8 < bpc then 1 else 0

/-- `(v + 127) & ~127` on a 32-bit `int` (`aligned_w` / `aligned_h`). -/
def alignDim (v : Nat) : Nat := (v + 127) &&& 4294967168

/-- `has_chroma = p->p.layout != DAV1D_PIXEL_LAYOUT_I400`. -/
def hasChroma (l : Dav1dPixelLayout) : Bool := l ≠ I400

/-- `ss_ver = p->p.layout == DAV1D_PIXEL_LAYOUT_I420`. -/
def ssVer (l : Dav1dPixelLayout) : Nat := if l = I420 then 1 else 0

/-- `ss_hor = p->p.layout != DAV1D_PIXEL_LAYOUT_I444`. -/
def ssHor (l : Dav1dPixelLayout) : Nat := if l ≠ I444 then 1 else 0

/-- `y_stride` before the stride bump: `aligned_w << hbd`. -/
def yStridePre (w bpc : Nat) : Nat := alignDim w <<< hbd bpc

/-- `uv_stride` before the stride bump: `has_chroma ? y_stride >> ss_hor : 0`
(computed from the pre-bump `y_stride`). -/
def uvStridePre (w bpc : Nat) (l : Dav1dPixelLayout) : Nat :=
  if hasChroma l then yStridePre w bpc >>> ssHor l else 0

/-- Stored luma stride `p->stride[0]`:
`if (!(y_stride & 1023)) y_stride += DAV1D_PICTURE_ALIGNMENT`. -/
def yStride (w bpc : Nat) : Nat :=
  if yStridePre w bpc &&& 1023 = 0 then yStridePre w bpc + DAV1D_PICTURE_ALIGNMENT
  else yStridePre w bpc

/-- Stored chroma stride `p->stride[1]`:
`if (!(uv_stride & 1023) && has_chroma) uv_stride += DAV1D_PICTURE_ALIGNMENT`. -/
def uvStride (w bpc : Nat) (l : Dav1dPixelLayout) : Nat :=
  if uvStridePre w bpc l &&& 1023 = 0 ∧ hasChroma l then
    uvStridePre w bpc l + DAV1D_PICTURE_ALIGNMENT
  else uvStridePre w bpc l

/-- `y_sz = y_stride * aligned_h`. -/
def ySz (w h bpc : Nat) : Nat := yStride w bpc * alignDim h

/-- `uv_sz = uv_stride * (aligned_h >> ss_ver)`. -/
def uvSz (w h bpc : Nat) (l : Dav1dPixelLayout) : Nat :=
  uvStride w bpc l * (alignDim h >>> ssVer l)

/-- `pic_size = y_sz + 2 * uv_sz`. -/
def picSize (w h bpc : Nat) (l : Dav1dPixelLayout) : Nat :=
  ySz w h bpc + 2 * uvSz w h bpc l

/-- `total_size = pic_size + 2 * DAV1D_PICTURE_ALIGNMENT`. -/
def totalSize (w h bpc : Nat) (l : Dav1dPixelLayout) : Nat :=
  picSize w h bpc l + 2 * DAV1D_PICTURE_ALIGNMENT

/-! ### Facts about the padded dimensions -/

/-- Within the `int` range, `alignDim` is rounding `v + 127` down to a
multiple of 128. -/
theorem alignDim_eq (v : Nat) (h : v + 127 < 2 ^ 32) :
    alignDim v = 128 * ((v + 127) / 128) := by
  unfold alignDim
  exact and_mask128_eq (v + 127) h

/-- The padded dimension is a multiple of 128. -/
theorem alignDim_mod_128 (v : Nat) (h : v + 127 < 2 ^ 32) :
    alignDim v % 128 = 0 := by
  rw [alignDim_eq v h]
  exact Nat.mul_mod_right 128 _

/-- The padded dimension is at least the requested dimension. -/
theorem le_alignDim (v : Nat) (h : v + 127 < 2 ^ 32) : v ≤ alignDim v := by
  rw [alignDim_eq v h]
  have h1 := Nat.div_add_mod (v + 127) 128
  have h2 : (v + 127) % 128 < 128 := Nat.mod_lt _ (by norm_num)
  omega

/-- The padded dimension overshoots the requested dimension by less
than 128: together with the previous two facts, it is the smallest
multiple of 128 not below the requested value. -/
theorem alignDim_lt (v : Nat) (h : v + 127 < 2 ^ 32) : alignDim v < v + 128 := by
  rw [alignDim_eq v h]
  have h1 := Nat.div_add_mod (v + 127) 128
  omega

/-! ### The allocator -/

/-- Modelled from the spec: `std::align` from the C++ standard library (not
part of this repository) — the first `al`-aligned address at or after `a`,
provided `sz` bytes starting there still fit within `space` bytes from `a`;
otherwise null. -/
def stdAlign (al sz a space : Nat) : Option Nat :=
  if (a + (al - 1)) / al * al + sz ≤ a + space then
    some ((a + (al - 1)) / al * al)
  else none

/-- The outcome of `dav1d_picture_allocator`: the fields it stores into the
`Dav1dPicture` (`stride[0]`, `stride[1]`, `data[0..2]` as absolute
addresses) and into the freshly allocated `PictureAllocatorData`
(`offset`, `aligned_width`, `aligned_height`). -/
structure AllocResult where
  strideY : Nat
  strideUV : Nat
  dataY : Nat
  dataU : Option Nat
  dataV : Option Nat
  offset : Nat
  alignedWidth : Nat
  alignedHeight : Nat
  deriving DecidableEq, Repr

/-- `dav1d_picture_allocator`, for a context using the custom allocator:
`bufferBase` is the address of the direct byte buffer obtained from the
Java-side `ByteBuffer.allocateDirect` (`none` models a null buffer or a
failed `GetDirectBufferAddress`); `none` overall models the
`DAV1D_ERR(ENOMEM)` early returns. -/
def dav1d_picture_allocator (w h bpc : Nat) (l : Dav1dPixelLayout)
    (bufferBase : Option Nat) : Option AllocResult :=
  match bufferBase with
  | none => none
  | some base =>
    match stdAlign DAV1D_PICTURE_ALIGNMENT
        (picSize w h bpc l + DAV1D_PICTURE_ALIGNMENT) base
        (totalSize w h bpc l) with
    | none => none
    | some aligned =>
      some { strideY := yStride w bpc
             strideUV := uvStride w bpc l
             dataY := aligned
             dataU := if hasChroma l then some (aligned + ySz w h bpc) else none
             dataV := if hasChroma l then
               some (aligned + ySz w h bpc + uvSz w h bpc l) else none
             offset := aligned - base
             alignedWidth := alignDim w
             alignedHeight := alignDim h }

/-! ### The reclaim queues

Both `unused_cookies` and `unused_picture_allocator_data` are
`std::vector`s of owning pointers.  Producers append with `emplace_back`;
the drain loops (`CleanUpAllocatorData`, the loops in `dav1dClose`, and
`releaseUnusedInputBuffers`) repeatedly read `back()`, dispose that record,
and `pop_back()` until the vector is empty.  A queue is a `List` with
`emplace_back` appending at the tail; the drains return the order in which
records are disposed. -/

/-- The drain loop, fuelled by the queue length: read `back()`, dispose,
`pop_back()`, repeat while non-empty. -/
def drainBackFuel {α : Type} : Nat → List α → List α
  | 0, _ => []
  | _ + 1, [] => []
  | n + 1, x :: xs =>
    (x :: xs).getLast (by simp) :: drainBackFuel n (x :: xs).dropLast

/-- Disposal order of the drain loop in `CleanUpAllocatorData` (and the
cookie drain loop in `dav1dClose`); the queue is empty afterwards. -/
def drainBack {α : Type} (q : List α) : List α := drainBackFuel q.length q

/-- The loop body of `releaseUnusedInputBuffers`: read `back()`, call the
Java-side `releaseInputBuffer` on the record's input buffer — if that call
throws (`ex` reports which records do), `break` without popping the record
or deleting its references — otherwise delete the record's two global
references and `pop_back()`.  Returns the remaining queue and the records
fully disposed, in disposal order. -/
def releaseLoopFuel {α : Type} (ex : α → Bool) : Nat → List α → List α × List α
  | 0, q => (q, [])
  | _ + 1, [] => ([], [])
  | n + 1, x :: xs =>
    if ex ((x :: xs).getLast (by simp)) then (x :: xs, [])
    else
      let r := releaseLoopFuel ex n (x :: xs).dropLast
      (r.1, (x :: xs).getLast (by simp) :: r.2)

/-- `releaseUnusedInputBuffers`: drain `unused_cookies` from the back. -/
def releaseUnusedInputBuffers {α : Type} (ex : α → Bool) (q : List α) :
    List α × List α := releaseLoopFuel ex q.length q

/-- The fuelled drain visits a list back to front: disposal order is the
reverse of push order. -/
theorem drainBackFuel_eq_reverse {α : Type} (n : Nat) (q : List α)
    (h : q.length ≤ n) : drainBackFuel n q = q.reverse := by
  induction n generalizing q with
  | zero =>
    have : q = [] := List.eq_nil_of_length_eq_zero (by omega)
    simp [this, drainBackFuel]
  | succ n ih =>
    match q with
    | [] => simp [drainBackFuel]
    | x :: xs =>
      have hne : x :: xs ≠ [] := by simp
      have hlen : (x :: xs).dropLast.length ≤ n := by
        simp only [List.length_dropLast, List.length_cons] at *
        omega
      rw [drainBackFuel, ih _ hlen]
      conv_rhs => rw [← List.dropLast_append_getLast hne]
      rw [List.reverse_append]
      simp

/-- `drainBack` disposes in reverse push order. -/
theorem drainBack_eq_reverse {α : Type} (q : List α) : drainBack q = q.reverse :=
  drainBackFuel_eq_reverse q.length q le_rfl

/-- When no release call throws, `releaseUnusedInputBuffers` empties the
queue, disposing in reverse push order. -/
theorem releaseLoopFuel_eq_reverse {α : Type} (ex : α → Bool) (n : Nat)
    (q : List α) (hq : ∀ a ∈ q, ex a = false) (h : q.length ≤ n) :
    releaseLoopFuel ex n q = ([], q.reverse) := by
  induction n generalizing q with
  | zero =>
    have : q = [] := List.eq_nil_of_length_eq_zero (by omega)
    simp [this, releaseLoopFuel]
  | succ n ih =>
    match q with
    | [] => simp [releaseLoopFuel]
    | x :: xs =>
      have hne : x :: xs ≠ [] := by simp
      have hlast : ex ((x :: xs).getLast hne) = false :=
        hq _ (List.getLast_mem hne)
      have hlen : (x :: xs).dropLast.length ≤ n := by
        simp only [List.length_dropLast, List.length_cons] at *
        omega
      have hsub : ∀ a ∈ (x :: xs).dropLast, ex a = false := fun a ha =>
        hq a (List.dropLast_subset _ ha)
      rw [releaseLoopFuel]
      rw [if_neg (by simp [hlast])]
      rw [ih _ hsub hlen]
      conv_rhs => rw [← List.dropLast_append_getLast hne]
      rw [List.reverse_append]
      simp

/-! ### Free callbacks

Decoder worker threads invoke `Dav1dDataFreeCallback` when an input's data
is consumed and `release_picture_allocator` when a picture is released.
Whether the `emplace_back` on the reclaim queue fails with `std::bad_alloc`
and whether `AttachCurrentThread` succeeds are oracle inputs. -/

/-- A `Cookie`: the ids of the two JNI global references owned by an
in-flight input submission (`global_ref_dav1d_data`,
`global_ref_input_buffer`). -/
structure Cookie where
  refDav1dData : Nat
  refInputBuffer : Nat
  deriving DecidableEq, Repr

/-- A `PictureAllocatorData` record: the layout metadata plus the id of the
`direct_byte_buffer` global reference it owns. -/
structure PictureAllocatorData where
  alignedWidth : Nat
  alignedHeight : Nat
  offset : Nat
  directByteBuffer : Nat
  deriving DecidableEq, Repr

/-- The observable effect of one free-callback invocation. -/
structure CallbackEffect (α : Type) where
  queue : List α
  deletedRefs : List Nat
  recordFreed : Bool
  threw : Bool
  deriving DecidableEq, Repr

/-- `Dav1dDataFreeCallback`: under the queue mutex, `emplace_back` the
cookie onto `unused_cookies`.  If the emplace throws `std::bad_alloc`, the
catch block attaches the current thread to the JVM and, when the attach
succeeds, deletes the cookie's two global references in place; in either
catch path the cookie itself is deleted. -/
def Dav1dDataFreeCallback (q : List Cookie) (c : Cookie)
    (emplaceFails attachOk : Bool) : CallbackEffect Cookie :=
  if emplaceFails then
    if attachOk then
      { queue := q, deletedRefs := [c.refDav1dData, c.refInputBuffer],
        recordFreed := true, threw := false }
    else
      { queue := q, deletedRefs := [], recordFreed := true, threw := false }
  else
    { queue := q ++ [c], deletedRefs := [], recordFreed := false,
      threw := false }

/-- `release_picture_allocator`: under the queue mutex, `emplace_back` the
picture's `PictureAllocatorData` onto `unused_picture_allocator_data`.
There is no try/catch: if the emplace throws `std::bad_alloc` the exception
escapes the callback and nothing is disposed (the TODO at the call site
notes the potential resource leak). -/
def release_picture_allocator (q : List PictureAllocatorData)
    (d : PictureAllocatorData) (emplaceFails : Bool) :
    CallbackEffect PictureAllocatorData :=
  if emplaceFails then
    { queue := q, deletedRefs := [], recordFreed := false, threw := true }
  else
    { queue := q ++ [d], deletedRefs := [], recordFreed := false,
      threw := false }

/-! ### The decoder context and the JNI entry points

`JniContext` keeps the fields the entry points branch on.  The `jlong`
handle a Java caller passes is either `kStatusError` (0, the value
`dav1dInit` returns when allocating the context itself fails), a pointer to
a live context, or — after `dav1dClose` has deleted the context — a
dangling pointer to freed memory.  The entry points check only
`jContext == kStatusError`; with a dangling handle they dereference freed
memory, which the models surface as a distinguished `useAfterFree`
outcome. -/

/-- The modelled fields of `JniContext`.  `decoder = none` models the
`Dav1dContext*` member never having been set: it is left uninitialized when
`dav1dInit` returns early on the NEON check, and null when `dav1d_open`
fails. -/
structure JniContext where
  libdav1d_status_code : Int
  jni_status_code : Int
  decoder : Option Unit
  use_custom_allocator : Bool
  deriving DecidableEq, Repr

/-- The `jlong jContext` value an entry point receives. -/
inductive Handle
  | error
  | live (ctx : JniContext)
  | freed
  deriving DecidableEq, Repr

/-- `dav1dInit`, after the context has been allocated and the JVM stored:
on an ARM build without NEON support (`neonSupported = false`) the function
records `kJniStatusNeonNotSupported` and returns with the decoder handle
never set; otherwise it runs `dav1d_open` (result `openResult`), recording
`kJniStatusDecoderInitFailed` on failure. -/
def dav1dInit (neonSupported useCustomAllocator : Bool)
    (openResult : Int) : JniContext :=
  if neonSupported = false then
    { libdav1d_status_code := 0,
      jni_status_code := kJniStatusNeonNotSupported,
      decoder := none, use_custom_allocator := useCustomAllocator }
  else
    { libdav1d_status_code := openResult,
      jni_status_code :=
        if openResult ≠ 0 then kJniStatusDecoderInitFailed else kJniStatusOk,
      decoder := if openResult = 0 then some () else none,
      use_custom_allocator := useCustomAllocator }

/-- What `dav1dFlush` does with its handle. -/
inductive FlushOutcome
  | earlyReturn
  | flushedDecoder (d : Option Unit)
  | useAfterFree
  deriving DecidableEq, Repr

/-- `dav1dFlush`: return early on the zero handle, otherwise call
`dav1d_flush(context->decoder)` — with no check of the recorded status
codes and no check that the decoder handle was ever set. -/
def dav1dFlush : Handle → FlushOutcome
  | .error => .earlyReturn
  | .freed => .useAfterFree
  | .live ctx => .flushedDecoder ctx.decoder

/-- Oracle results for the external calls `dav1dDecode` makes. -/
structure DecodeOracles where
  bufferAddrOk : Bool
  wrapResult : Int
  wrapUserResult : Int
  sendResult : Int
  deriving DecidableEq, Repr

/-- One `dav1dDecode` run on a live context: the `jint` returned, the
`libdav1d_status_code` stored in the context, and whether
`dav1d_send_data(context->decoder, …)` was invoked. -/
structure DecodeRun where
  status : Int
  libdav1d_status_code : Int
  sentToDecoder : Bool
  deriving DecidableEq, Repr

/-- The body of `dav1dDecode` for a live context, following the source:
fail on a null direct-buffer address; store and check the results of
`dav1d_data_wrap` and `dav1d_data_wrap_user_data`; then send, where any
result other than 0 and `DAV1D_ERR(EAGAIN)` returns `kStatusError` and
both 0 and `DAV1D_ERR(EAGAIN)` fall through to `return kStatusOk`. -/
def dav1dDecodeRun (ctx : JniContext) (o : DecodeOracles) : DecodeRun :=
  if o.bufferAddrOk = false then
    { status := kStatusError,
      libdav1d_status_code := ctx.libdav1d_status_code,
      sentToDecoder := false }
  else if o.wrapResult ≠ 0 then
    { status := kStatusError, libdav1d_status_code := o.wrapResult,
      sentToDecoder := false }
  else if o.wrapUserResult ≠ 0 then
    { status := kStatusError, libdav1d_status_code := o.wrapUserResult,
      sentToDecoder := false }
  else if o.sendResult ≠ 0 ∧ o.sendResult ≠ DAV1D_ERR EAGAIN then
    { status := kStatusError, libdav1d_status_code := o.sendResult,
      sentToDecoder := true }
  else
    { status := kStatusOk, libdav1d_status_code := o.sendResult,
      sentToDecoder := true }

/-- Outcome of `dav1dDecode` including the handle check. -/
inductive DecodeOutcome
  | earlyReturn
  | useAfterFree
  | run (r : DecodeRun)
  deriving DecidableEq, Repr

/-- `dav1dDecode`: only the zero handle short-circuits. -/
def dav1dDecode : Handle → DecodeOracles → DecodeOutcome
  | .error, _ => .earlyReturn
  | .freed, _ => .useAfterFree
  | .live ctx, o => .run (dav1dDecodeRun ctx o)

/-- The fields of the obtained `Dav1dPicture` (with its attached
`UserDataCookie`) that `dav1dGetFrame` branches on. -/
structure PictureMeta where
  w : Nat
  h : Nat
  bpc : Nat
  decodeOnly : Bool
  outputMode : Int
  deriving DecidableEq, Repr

/-- Oracle results for the external calls `dav1dGetFrame` makes. -/
structure GetFrameOracles where
  getPictureResult : Int
  pic : PictureMeta
  setFlagsThrows : Bool
  initOutputBufferThrows : Bool
  initFrameOk : Bool
  initFrameThrows : Bool
  deriving DecidableEq, Repr

/-- One `dav1dGetFrame` run on a live context. -/
structure GetFrameRun where
  status : Int
  libdav1d_status_code : Int
  jni_status_code : Int
  calledGetPicture : Bool
  decoderPrivateStored : Bool
  deriving DecidableEq, Repr

/-- The body of `dav1dGetFrame` for a live context, following the source
order: `dav1d_get_picture` (hard error / EAGAIN handling), `setFlags`
exception check, the decode-only early return, the output-buffer init
exception check, the `bpc != 8` check, and only then the branch on the
output mode. -/
def dav1dGetFrameRun (ctx : JniContext) (o : GetFrameOracles) : GetFrameRun :=
  let base : GetFrameRun :=
    { status := kStatusOk, libdav1d_status_code := o.getPictureResult,
      jni_status_code := ctx.jni_status_code, calledGetPicture := true,
      decoderPrivateStored := false }
  if o.getPictureResult ≠ 0 ∧ o.getPictureResult ≠ DAV1D_ERR EAGAIN then
    { base with status := kStatusError }
  else if o.getPictureResult = DAV1D_ERR EAGAIN then
    { base with status := kStatusEagain }
  else if o.setFlagsThrows then
    { base with
      status := kStatusError
      jni_status_code := kJniStatusBufferInitError }
  else if o.pic.decodeOnly then
    { base with status := kStatusDecodeOnly }
  else if o.initOutputBufferThrows then
    { base with
      status := kStatusError
      jni_status_code := kJniStatusBufferInitError }
  else if o.pic.bpc ≠ 8 then
    { base with
      status := kStatusError
      jni_status_code := kJniStatusHighBitDepthNotSupportedWithYuv }
  else if o.pic.outputMode = kOutputModeYuv then
    if o.initFrameOk = false then
      { base with
        status := kStatusError
        jni_status_code := kJniStatusBufferResizeError }
    else if o.initFrameThrows then
      { base with
        status := kStatusError
        jni_status_code := kJniStatusBufferResizeError }
    else base
  else if o.pic.outputMode = kOutputModeSurfaceYuv then
    { base with decoderPrivateStored := true }
  else base

/-- Outcome of `dav1dGetFrame` including the handle check. -/
inductive GetFrameOutcome
  | earlyReturn
  | useAfterFree
  | run (r : GetFrameRun)
  deriving DecidableEq, Repr

/-- `dav1dGetFrame`: only the zero handle short-circuits. -/
def dav1dGetFrame : Handle → GetFrameOracles → GetFrameOutcome
  | .error, _ => .earlyReturn
  | .freed, _ => .useAfterFree
  | .live ctx, o => .run (dav1dGetFrameRun ctx o)

/-- `dav1dCheckError` on a live context: `kStatusError` whenever either
status code records an error, else `kStatusOk`. -/
def dav1dCheckErrorRun (ctx : JniContext) : Int :=
  if ctx.libdav1d_status_code ≠ 0 ∨ ctx.jni_status_code ≠ kJniStatusOk then
    kStatusError
  else kStatusOk

/-- `dav1dCheckError` including the handle check (`none` = dereference of a
freed context). -/
def dav1dCheckError : Handle → Option Int
  | .error => some kStatusError
  | .freed => none
  | .live ctx => some (dav1dCheckErrorRun ctx)

/-- `dav1dClose`: early return on the zero handle; otherwise the decoder is
closed, the queues drained and the context deleted — the caller's handle
value now dangles. -/
def dav1dClose : Handle → Option Handle
  | .error => some .error
  | .freed => none
  | .live _ => some .freed

/-- The modelled field of a `VideoDecoderOutputBuffer`: its
`decoderPrivate` jlong (0 is the null picture pointer). -/
structure OutputBuffer where
  decoderPrivate : Nat
  deriving DecidableEq, Repr

/-- The body of `dav1dReleaseFrame` on a live context: read
`decoderPrivate`, store 0 into the field, then — only when the pointer
read was non-null — unref and delete the picture.  Returns the updated
buffer and whether a picture was disposed. -/
def dav1dReleaseFrameRun (b : OutputBuffer) : OutputBuffer × Bool :=
  ({ decoderPrivate := 0 }, b.decoderPrivate ≠ 0)

/-- `dav1dReleaseFrame` including the handle check. -/
def dav1dReleaseFrame : Handle → OutputBuffer → Option (OutputBuffer × Bool)
  | .error, b => some (b, false)
  | .freed, _ => none
  | .live _, b => some (dav1dReleaseFrameRun b)

/-! ### Helper lemmas for the layout theorems -/

/-- The padded dimension is divisible by 64. -/
theorem dvd64_alignDim (v : Nat) (h : v + 127 < 2 ^ 32) : 64 ∣ alignDim v := by
  rw [alignDim_eq v h]
  exact ⟨2 * ((v + 127) / 128), by ring⟩

/-- The chroma plane height `aligned_h >> ss_ver` is divisible by 64. -/
theorem dvd64_chromaHeight (v : Nat) (l : Dav1dPixelLayout)
    (h : v + 127 < 2 ^ 32) : 64 ∣ alignDim v >>> ssVer l := by
  have h128 := alignDim_eq v h
  cases l <;>
    simp only [ssVer, Nat.shiftRight_eq_div_pow, h128, pow_zero, pow_one,
      Nat.div_one, reduceIte, reduceCtorEq] <;>
    omega

/-- `y_sz` is divisible by 64. -/
theorem dvd64_ySz (w h bpc : Nat) (hh : h + 127 < 2 ^ 32) :
    64 ∣ ySz w h bpc := (dvd64_alignDim h hh).mul_left (yStride w bpc)

/-- `uv_sz` is divisible by 64. -/
theorem dvd64_uvSz (w h bpc : Nat) (l : Dav1dPixelLayout)
    (hh : h + 127 < 2 ^ 32) : 64 ∣ uvSz w h bpc l :=
  (dvd64_chromaHeight h l hh).mul_left (uvStride w bpc l)

/-- Inversion for `stdAlign`. -/
theorem stdAlign_some {al sz a space aligned : Nat}
    (h : stdAlign al sz a space = some aligned) :
    aligned = (a + (al - 1)) / al * al ∧ aligned + sz ≤ a + space := by
  rw [stdAlign] at h
  split at h
  case isTrue hc =>
    rw [Option.some.injEq] at h
    subst h
    exact ⟨rfl, hc⟩
  case isFalse hc => exact absurd h (by simp)

/-- The address `std::align` produces for alignment 64 is 64-aligned and
does not move backwards. -/
theorem aligned_addr_facts (a : Nat) :
    (a + 63) / 64 * 64 % 64 = 0 ∧ a ≤ (a + 63) / 64 * 64 ∧
    (a + 63) / 64 * 64 ≤ a + 63 := by
  refine ⟨Nat.mul_mod_left _ _, ?_, ?_⟩ <;>
  · have h1 := Nat.div_add_mod (a + 63) 64
    have h2 : (a + 63) % 64 < 64 := Nat.mod_lt _ (by norm_num)
    omega

/-- Two byte ranges do not overlap. -/
def disjointRanges (a la b lb : Nat) : Prop := a + la ≤ b ∨ b + lb ≤ a

/-! ### Claim C1 — the stride-bump condition -/

/-- C1 counterexample: the claim says the luma stride gets bumped whenever
it is an exact multiple of `DAV1D_PICTURE_ALIGNMENT` (64).  At requested
width 1 and bit depth 8 the computed stride is 128 — an exact multiple of
64 — yet the stored stride is 128, not 128 + 64: the code's bump condition
`!(y_stride & 1023)` tests divisibility by 1024, not by the alignment
unit. -/
theorem stride_bump_not_at_alignment_multiple :
    ¬ (yStridePre 1 8 % DAV1D_PICTURE_ALIGNMENT = 0 →
       yStride 1 8 = yStridePre 1 8 + DAV1D_PICTURE_ALIGNMENT) := by decide

/-- C1 (amended): one alignment unit is added to a computed stride exactly
when that stride is a multiple of 1024 (`!(stride & 1023)`), the chroma
stride additionally requiring chroma to be present; otherwise the stride
is stored unchanged. -/
theorem stride_bump_iff_multiple_of_1024 (w bpc : Nat) (l : Dav1dPixelLayout) :
    (yStridePre w bpc % 1024 = 0 ↔
      yStride w bpc = yStridePre w bpc + DAV1D_PICTURE_ALIGNMENT) ∧
    (yStridePre w bpc % 1024 ≠ 0 → yStride w bpc = yStridePre w bpc) ∧
    (uvStridePre w bpc l % 1024 = 0 ∧ hasChroma l = true ↔
      uvStride w bpc l = uvStridePre w bpc l + DAV1D_PICTURE_ALIGNMENT) ∧
    (uvStridePre w bpc l % 1024 ≠ 0 → uvStride w bpc l = uvStridePre w bpc l) := by
  have hy := and_1023_eq_mod (yStridePre w bpc)
  have huv := and_1023_eq_mod (uvStridePre w bpc l)
  have h64 : DAV1D_PICTURE_ALIGNMENT = 64 := rfl
  refine ⟨⟨fun hm => ?_, fun he => ?_⟩, fun hm => ?_, ⟨fun hm => ?_, fun he => ?_⟩,
    fun hm => ?_⟩
  · rw [yStride, if_pos (hy.trans hm)]
  · by_contra hm
    rw [yStride, if_neg (fun hc => hm (hy ▸ hc))] at he
    omega
  · rw [yStride, if_neg (fun hc => hm (hy ▸ hc))]
  · rw [uvStride, if_pos ⟨huv.trans hm.1, by simp [hm.2]⟩]
  · by_contra hm
    rw [not_and_or] at hm
    rw [uvStride] at he
    split_ifs at he with hc
    · rcases hm with hm | hm
      · exact hm (huv ▸ hc.1)
      · exact hm hc.2
    · omega
  · rw [uvStride, if_neg (fun hc => hm (huv ▸ hc.1))]

/-! ### Claim C2 — drain order of the reclaim queues -/

/-- C2 counterexample: two records pushed in the order `0, 1` are disposed
in the order `1, 0` — the drain loops read `back()` and `pop_back()`, so
disposal is LIFO, not FIFO. -/
theorem drain_order_not_fifo :
    drainBack ([0, 1] : List Nat) = [1, 0] ∧
    drainBack ([0, 1] : List Nat) ≠ [0, 1] := by decide

/-- C2 (amended): a drain (`CleanUpAllocatorData` or
`releaseUnusedInputBuffers` when no release call throws) disposes the
pushed records in LIFO order — the reverse of push order — each exactly
once, and leaves the queue empty. -/
theorem drain_disposes_in_lifo_order (α : Type) (q : List α) (ex : α → Bool)
    (hex : ∀ a ∈ q, ex a = false) :
    drainBack q = q.reverse ∧
    releaseUnusedInputBuffers ex q = ([], q.reverse) :=
  ⟨drainBack_eq_reverse q, releaseLoopFuel_eq_reverse ex q.length q hex le_rfl⟩

/-- C2 witness: the drains evaluated on the concrete queue `[0, 1, 2]`. -/
theorem drain_disposes_in_lifo_order_witness :
    drainBack ([0, 1, 2] : List Nat) = [0, 1, 2].reverse ∧
    releaseUnusedInputBuffers (fun _ => false) ([0, 1, 2] : List Nat) =
      ([], [0, 1, 2].reverse) :=
  drain_disposes_in_lifo_order Nat [0, 1, 2] (fun _ => false) (fun _ _ => rfl)

/-! ### Claim C7 — the allocator's layout arithmetic -/

/-- C7 counterexample: at width 1024 (8-bit, I420) the stored luma stride
is 1088 (1024 bumped by 64) while the stored chroma stride is 512 — the
chroma stride is derived from the luma stride before the bump, so it is
not the stored luma stride shifted by the horizontal subsampling
(1088 >> 1 = 544 ≠ 512). -/
theorem chroma_stride_not_derived_from_stored_luma :
    yStride 1024 8 = 1088 ∧ uvStride 1024 8 I420 = 512 ∧
    uvStride 1024 8 I420 ≠ yStride 1024 8 >>> ssHor I420 := by decide

/-- C7 (amended): padded width and height are the smallest multiples of 128
not below the requested values; the chroma stride derives from the pre-bump
luma stride shifted right by the horizontal subsampling (exactly zero for
monochrome I400), each stride then receiving its own independent bump; and
the total requested region size equals lumaSize + 2 × chromaSize +
2 × alignmentUnit. -/
theorem allocator_layout_arithmetic (w h bpc : Nat) (l : Dav1dPixelLayout)
    (hw : w + 127 < 2 ^ 32) (hh : h + 127 < 2 ^ 32) :
    (alignDim w % 128 = 0 ∧ w ≤ alignDim w ∧ alignDim w < w + 128) ∧
    (alignDim h % 128 = 0 ∧ h ≤ alignDim h ∧ alignDim h < h + 128) ∧
    (hasChroma l = true → uvStridePre w bpc l = yStridePre w bpc >>> ssHor l) ∧
    (hasChroma l = false → uvStride w bpc l = 0) ∧
    totalSize w h bpc l =
      ySz w h bpc + 2 * uvSz w h bpc l + 2 * DAV1D_PICTURE_ALIGNMENT := by
  refine ⟨⟨alignDim_mod_128 w hw, le_alignDim w hw, alignDim_lt w hw⟩,
    ⟨alignDim_mod_128 h hh, le_alignDim h hh, alignDim_lt h hh⟩,
    fun hc => ?_, fun hc => ?_, ?_⟩
  · rw [uvStridePre, if_pos (by simp [hc])]
  · rw [uvStride, uvStridePre, if_neg (by simp [hc]), if_neg (by simp [hc])]
  · rfl

/-- C7 witness: the layout facts evaluated at width 1, height 1, 8-bit,
I420. -/
theorem allocator_layout_arithmetic_witness :
    ((1 : Nat) + 127 < 2 ^ 32) ∧
    ((alignDim 1 % 128 = 0 ∧ 1 ≤ alignDim 1 ∧ alignDim 1 < 1 + 128) ∧
     (alignDim 1 % 128 = 0 ∧ 1 ≤ alignDim 1 ∧ alignDim 1 < 1 + 128) ∧
     (hasChroma I420 = true →
       uvStridePre 1 8 I420 = yStridePre 1 8 >>> ssHor I420) ∧
     (hasChroma I420 = false → uvStride 1 8 I420 = 0) ∧
     totalSize 1 1 8 I420 =
       ySz 1 1 8 + 2 * uvSz 1 1 8 I420 + 2 * DAV1D_PICTURE_ALIGNMENT) :=
  ⟨by norm_num, allocator_layout_arithmetic 1 1 8 I420 (by norm_num) (by norm_num)⟩

/-! ### Claim C5 — the picture planes -/

/-- C5: for every accepted request, the allocator places the Y plane at the
64-aligned address inside the region, the U plane right after the
`y_stride × aligned_height` luma bytes, and the V plane right after the
`uv_stride × chroma_height` U bytes; the three plane ranges are pairwise
non-overlapping, lie within the requested region, and each plane base is
aligned to `DAV1D_PICTURE_ALIGNMENT`. -/
theorem allocator_planes_disjoint_and_aligned (w h bpc : Nat)
    (l : Dav1dPixelLayout) (base : Nat) (r : AllocResult)
    (_hw : w + 127 < 2 ^ 32) (hh : h + 127 < 2 ^ 32)
    (halloc : dav1d_picture_allocator w h bpc l (some base) = some r) :
    r.dataY % DAV1D_PICTURE_ALIGNMENT = 0 ∧
    base ≤ r.dataY ∧
    r.dataY + ySz w h bpc + 2 * uvSz w h bpc l ≤ base + totalSize w h bpc l ∧
    (hasChroma l = true →
      r.dataU = some (r.dataY + ySz w h bpc) ∧
      r.dataV = some (r.dataY + ySz w h bpc + uvSz w h bpc l) ∧
      (r.dataY + ySz w h bpc) % DAV1D_PICTURE_ALIGNMENT = 0 ∧
      (r.dataY + ySz w h bpc + uvSz w h bpc l) % DAV1D_PICTURE_ALIGNMENT = 0 ∧
      disjointRanges r.dataY (ySz w h bpc)
        (r.dataY + ySz w h bpc) (uvSz w h bpc l) ∧
      disjointRanges r.dataY (ySz w h bpc)
        (r.dataY + ySz w h bpc + uvSz w h bpc l) (uvSz w h bpc l) ∧
      disjointRanges (r.dataY + ySz w h bpc) (uvSz w h bpc l)
        (r.dataY + ySz w h bpc + uvSz w h bpc l) (uvSz w h bpc l)) ∧
    (hasChroma l = false → r.dataU = none ∧ r.dataV = none) := by
  rw [dav1d_picture_allocator] at halloc
  rcases hst : stdAlign DAV1D_PICTURE_ALIGNMENT
      (picSize w h bpc l + DAV1D_PICTURE_ALIGNMENT) base
      (totalSize w h bpc l) with _ | aligned
  · rw [hst] at halloc
    exact absurd halloc (by simp)
  · rw [hst] at halloc
    rw [Option.some.injEq] at halloc
    subst halloc
    obtain ⟨ha, hfit⟩ := stdAlign_some hst
    obtain ⟨hmod, hle, _⟩ := aligned_addr_facts base
    have ha64 : aligned % 64 = 0 := by
      rw [ha]
      exact hmod
    have hdy : 64 ∣ ySz w h bpc := dvd64_ySz w h bpc hh
    have hduv : 64 ∣ uvSz w h bpc l := dvd64_uvSz w h bpc l hh
    have hda : 64 ∣ aligned := Nat.dvd_of_mod_eq_zero ha64
    rw [picSize] at hfit
    rw [show DAV1D_PICTURE_ALIGNMENT = 64 from rfl] at hfit
    refine ⟨ha64, ?_, ?_, fun hc => ?_, fun hc => ?_⟩
    · rw [ha]
      exact hle
    · show aligned + ySz w h bpc + 2 * uvSz w h bpc l ≤
        base + totalSize w h bpc l
      omega
    · refine ⟨by simp [hc], by simp [hc], ?_, ?_,
        Or.inl le_rfl, Or.inl (Nat.le_add_right _ _), Or.inl le_rfl⟩
      · show (aligned + ySz w h bpc) % DAV1D_PICTURE_ALIGNMENT = 0
        rw [show DAV1D_PICTURE_ALIGNMENT = 64 from rfl]
        omega
      · show (aligned + ySz w h bpc + uvSz w h bpc l) %
          DAV1D_PICTURE_ALIGNMENT = 0
        rw [show DAV1D_PICTURE_ALIGNMENT = 64 from rfl]
        omega
    · simp [hc]

/-- C5 witness: the allocator evaluated at width 1, height 1, 8-bit, I420,
with the backing buffer at address 1: the planes land at 64, 16448 and
20544 inside the 24704-byte region. -/
theorem allocator_planes_disjoint_and_aligned_witness :
    ((1 : Nat) + 127 < 2 ^ 32) ∧
    dav1d_picture_allocator 1 1 8 I420 (some 1) =
      some ⟨128, 64, 64, some 16448, some 20544, 63, 128, 128⟩ ∧
    (64 % DAV1D_PICTURE_ALIGNMENT = 0 ∧
     1 ≤ 64 ∧
     64 + ySz 1 1 8 + 2 * uvSz 1 1 8 I420 ≤ 1 + totalSize 1 1 8 I420 ∧
     (hasChroma I420 = true →
       some 16448 = some (64 + ySz 1 1 8) ∧
       some 20544 = some (64 + ySz 1 1 8 + uvSz 1 1 8 I420) ∧
       (64 + ySz 1 1 8) % DAV1D_PICTURE_ALIGNMENT = 0 ∧
       (64 + ySz 1 1 8 + uvSz 1 1 8 I420) % DAV1D_PICTURE_ALIGNMENT = 0 ∧
       disjointRanges 64 (ySz 1 1 8) (64 + ySz 1 1 8) (uvSz 1 1 8 I420) ∧
       disjointRanges 64 (ySz 1 1 8)
         (64 + ySz 1 1 8 + uvSz 1 1 8 I420) (uvSz 1 1 8 I420) ∧
       disjointRanges (64 + ySz 1 1 8) (uvSz 1 1 8 I420)
         (64 + ySz 1 1 8 + uvSz 1 1 8 I420) (uvSz 1 1 8 I420)) ∧
     (hasChroma I420 = false → some 16448 = none ∧ some 20544 = none)) :=
  ⟨by norm_num, by decide,
    allocator_planes_disjoint_and_aligned 1 1 8 I420 1
      ⟨128, 64, 64, some 16448, some 20544, 63, 128, 128⟩
      (by norm_num) (by norm_num) (by decide)⟩

/-! ### Claim C3 — dav1dDecode under backpressure -/

/-- C3 counterexample: when `dav1d_send_data` reports `DAV1D_ERR(EAGAIN)`,
`dav1dDecode` returns `kStatusOk`, not the distinct backpressure code
`kStatusEagain`. -/
theorem decode_eagain_not_kStatusEagain :
    dav1dDecode
      (.live { libdav1d_status_code := 0, jni_status_code := 0,
               decoder := some (), use_custom_allocator := true })
      { bufferAddrOk := true, wrapResult := 0, wrapUserResult := 0,
        sendResult := DAV1D_ERR EAGAIN } =
      .run { status := kStatusOk, libdav1d_status_code := DAV1D_ERR EAGAIN,
             sentToDecoder := true } ∧
    kStatusOk ≠ kStatusEagain := by decide

/-- C3 (amended): when the underlying send reports `DAV1D_ERR(EAGAIN)`,
`dav1dDecode` does not return `kStatusError` — it falls through to
`kStatusOk`, recording `DAV1D_ERR(EAGAIN)` in the context's
`libdav1d_status_code`; the distinct `kStatusEagain` code is not used on
this path. -/
theorem decode_eagain_returns_ok (ctx : JniContext) (o : DecodeOracles)
    (h1 : o.bufferAddrOk = true) (h2 : o.wrapResult = 0)
    (h3 : o.wrapUserResult = 0) (h4 : o.sendResult = DAV1D_ERR EAGAIN) :
    dav1dDecode (.live ctx) o =
      .run { status := kStatusOk, libdav1d_status_code := DAV1D_ERR EAGAIN,
             sentToDecoder := true } ∧
    kStatusOk ≠ kStatusError ∧ kStatusOk ≠ kStatusEagain := by
  refine ⟨?_, by decide, by decide⟩
  rw [dav1dDecode]
  rw [dav1dDecodeRun]
  rw [if_neg (by simp [h1]), if_neg (by simp [h2]), if_neg (by simp [h3]),
    if_neg (by simp [h4]), h4]

/-- C3 witness: the amended statement at a concrete context and concrete
oracle results. -/
theorem decode_eagain_returns_ok_witness :
    ({ bufferAddrOk := true, wrapResult := 0, wrapUserResult := 0,
       sendResult := DAV1D_ERR EAGAIN : DecodeOracles }.sendResult =
        DAV1D_ERR EAGAIN) ∧
    (dav1dDecode
      (.live { libdav1d_status_code := 0, jni_status_code := 0,
               decoder := some (), use_custom_allocator := false })
      { bufferAddrOk := true, wrapResult := 0, wrapUserResult := 0,
        sendResult := DAV1D_ERR EAGAIN } =
      .run { status := kStatusOk, libdav1d_status_code := DAV1D_ERR EAGAIN,
             sentToDecoder := true } ∧
    kStatusOk ≠ kStatusError ∧ kStatusOk ≠ kStatusEagain) :=
  ⟨rfl, decode_eagain_returns_ok
    { libdav1d_status_code := 0, jni_status_code := 0,
      decoder := some (), use_custom_allocator := false }
    { bufferAddrOk := true, wrapResult := 0, wrapUserResult := 0,
      sendResult := DAV1D_ERR EAGAIN } rfl rfl rfl rfl⟩

/-! ### Claim C4 — a recorded init error does not gate later entry points -/

/-- C4 counterexample: `dav1dInit` on a NEON-less ARM build records
`kJniStatusNeonNotSupported` and leaves the decoder handle unset, yet
`dav1dFlush` on that context does not return the recorded error: it
proceeds to call `dav1d_flush` on the never-set decoder handle. -/
theorem init_error_flush_touches_decoder :
    (dav1dInit false false 0).jni_status_code = kJniStatusNeonNotSupported ∧
    (dav1dInit false false 0).decoder = none ∧
    dav1dFlush (.live (dav1dInit false false 0)) = .flushedDecoder none ∧
    FlushOutcome.flushedDecoder none ≠ .earlyReturn := by decide

/-- C4 (amended): the entry points short-circuit only on the zero
(`kStatusError`) context handle.  On a live context with a recorded init
error, `dav1dFlush`, `dav1dGetFrame` and `dav1dDecode` do not check the
recorded status: they proceed to invoke the decoder operations on the
possibly-null decoder handle.  The recorded error is surfaced only through
`dav1dCheckError` (and `dav1dGetErrorMessage`). -/
theorem init_error_does_not_short_circuit (ctx : JniContext)
    (og : GetFrameOracles) (od : DecodeOracles)
    (hctx : ctx.jni_status_code ≠ kJniStatusOk)
    (hb : od.bufferAddrOk = true) (h2 : od.wrapResult = 0)
    (h3 : od.wrapUserResult = 0) :
    dav1dFlush (.live ctx) = .flushedDecoder ctx.decoder ∧
    (dav1dGetFrameRun ctx og).calledGetPicture = true ∧
    (dav1dDecodeRun ctx od).sentToDecoder = true ∧
    dav1dCheckError (.live ctx) = some kStatusError := by
  refine ⟨rfl, ?_, ?_, ?_⟩
  · rw [dav1dGetFrameRun]
    split_ifs <;> rfl
  · rw [dav1dDecodeRun]
    rw [if_neg (by simp [hb]), if_neg (by simp [h2]), if_neg (by simp [h3])]
    split_ifs <;> rfl
  · rw [dav1dCheckError, dav1dCheckErrorRun, if_pos (Or.inr hctx)]

/-- C4 witness: the amended statement at the NEON-error context produced by
`dav1dInit` and concrete oracle results. -/
theorem init_error_does_not_short_circuit_witness :
    ((dav1dInit false false 0).jni_status_code ≠ kJniStatusOk) ∧
    (dav1dFlush (.live (dav1dInit false false 0)) =
      .flushedDecoder (dav1dInit false false 0).decoder ∧
    (dav1dGetFrameRun (dav1dInit false false 0)
      ⟨0, ⟨1920, 1080, 8, false, 0⟩, false, false, true, false⟩).calledGetPicture
        = true ∧
    (dav1dDecodeRun (dav1dInit false false 0)
      ⟨true, 0, 0, 0⟩).sentToDecoder = true ∧
    dav1dCheckError (.live (dav1dInit false false 0)) = some kStatusError) :=
  ⟨by decide, init_error_does_not_short_circuit (dav1dInit false false 0)
    ⟨0, ⟨1920, 1080, 8, false, 0⟩, false, false, true, false⟩
    ⟨true, 0, 0, 0⟩ (by decide) rfl rfl rfl⟩

/-! ### Claim C6 — push failure inside the free callbacks -/

/-- C6 counterexample: when the queue append fails inside
`release_picture_allocator`, nothing is disposed — unlike
`Dav1dDataFreeCallback`, the picture release callback has no
`std::bad_alloc` fallback: the record's `direct_byte_buffer` global
reference is not deleted, the record is not freed, and the exception
escapes. -/
theorem picture_release_no_fallback :
    (release_picture_allocator [] ⟨128, 128, 0, 5⟩ true).deletedRefs = [] ∧
    (release_picture_allocator [] ⟨128, 128, 0, 5⟩ true).recordFreed = false ∧
    (release_picture_allocator [] ⟨128, 128, 0, 5⟩ true).threw = true := by
  decide

/-- C6 (amended): the allocation-failure fallback exists only in the
input-consumption record callback: when its append fails and the thread
attach succeeds, `Dav1dDataFreeCallback` deletes the record's two
caller-owned references exactly once, in place, and frees the record,
while a successful append transfers the intact record to the queue with no
disposal.  `release_picture_allocator` performs a plain append with no
fallback: on append failure the exception escapes with nothing disposed. -/
theorem push_failure_fallback_only_in_data_callback (q : List Cookie)
    (c : Cookie) (q2 : List PictureAllocatorData) (d : PictureAllocatorData) :
    Dav1dDataFreeCallback q c true true =
      { queue := q, deletedRefs := [c.refDav1dData, c.refInputBuffer],
        recordFreed := true, threw := false } ∧
    Dav1dDataFreeCallback q c false true =
      { queue := q ++ [c], deletedRefs := [], recordFreed := false,
        threw := false } ∧
    release_picture_allocator q2 d true =
      { queue := q2, deletedRefs := [], recordFreed := false,
        threw := true } ∧
    release_picture_allocator q2 d false =
      { queue := q2 ++ [d], deletedRefs := [], recordFreed := false,
        threw := false } := by
  exact ⟨rfl, rfl, rfl, rfl⟩

/-! ### Claim C8 — calls after dav1dClose -/

/-- C8 counterexample: `dav1dClose` deletes the context, leaving the
caller's handle value dangling; a subsequent `dav1dDecode` with that
handle does not return a terminal result — it dereferences the freed
context (only the zero handle is checked). -/
theorem decode_after_close_use_after_free :
    dav1dClose
      (.live { libdav1d_status_code := 0, jni_status_code := 0,
               decoder := some (), use_custom_allocator := false }) =
      some .freed ∧
    dav1dDecode .freed
      { bufferAddrOk := true, wrapResult := 0, wrapUserResult := 0,
        sendResult := 0 } = .useAfterFree ∧
    DecodeOutcome.useAfterFree ≠ .earlyReturn := by decide

/-- C8 (amended): after `dav1dClose` the context memory is freed and the
native layer performs no liveness check: only the zero (`kStatusError`)
handle short-circuits, so `dav1dDecode`/`dav1dGetFrame` on the stale
nonzero handle dereference freed memory instead of returning any status;
not calling them after close is the Java caller's obligation. -/
theorem stale_handle_not_guarded (ctx : JniContext) (od : DecodeOracles)
    (og : GetFrameOracles) :
    dav1dClose (.live ctx) = some .freed ∧
    dav1dDecode .freed od = .useAfterFree ∧
    dav1dGetFrame .freed og = .useAfterFree ∧
    dav1dDecode .error od = .earlyReturn ∧
    dav1dGetFrame .error og = .earlyReturn :=
  ⟨rfl, rfl, rfl, rfl, rfl⟩

/-! ### Claim C9 — the high-bit-depth check precedes the output-mode branch -/

/-- C9: whenever `dav1dGetFrame` obtains a picture for output (the get
succeeded, it is not decode-only, and no Java exception interfered) whose
bit depth is not 8, it returns `kStatusError` and records
`kJniStatusHighBitDepthNotSupportedWithYuv` — for every output mode,
since the check precedes the output-mode branch. -/
theorem high_bit_depth_rejected_before_mode_branch (ctx : JniContext)
    (o : GetFrameOracles) (h0 : o.getPictureResult = 0)
    (h1 : o.pic.decodeOnly = false) (h2 : o.setFlagsThrows = false)
    (h3 : o.initOutputBufferThrows = false) (h4 : o.pic.bpc ≠ 8) :
    (dav1dGetFrameRun ctx o).status = kStatusError ∧
    (dav1dGetFrameRun ctx o).jni_status_code =
      kJniStatusHighBitDepthNotSupportedWithYuv := by
  rw [dav1dGetFrameRun]
  rw [if_neg (by simp [h0]), if_neg (by simp [h0, DAV1D_ERR, EAGAIN]),
    if_neg (by simp [h2]), if_neg (by simp [h1]), if_neg (by simp [h3]),
    if_pos h4]
  exact ⟨rfl, rfl⟩

/-- C9 witness: a 10-bit picture in surface output mode is rejected with
the high-bit-depth error code. -/
theorem high_bit_depth_rejected_before_mode_branch_witness :
    (({ getPictureResult := 0,
        pic := ⟨1920, 1080, 10, false, kOutputModeSurfaceYuv⟩,
        setFlagsThrows := false, initOutputBufferThrows := false,
        initFrameOk := true, initFrameThrows := false } :
        GetFrameOracles).pic.bpc ≠ 8) ∧
    ((dav1dGetFrameRun ⟨0, 0, some (), true⟩
      { getPictureResult := 0,
        pic := ⟨1920, 1080, 10, false, kOutputModeSurfaceYuv⟩,
        setFlagsThrows := false, initOutputBufferThrows := false,
        initFrameOk := true, initFrameThrows := false }).status =
          kStatusError ∧
    (dav1dGetFrameRun ⟨0, 0, some (), true⟩
      { getPictureResult := 0,
        pic := ⟨1920, 1080, 10, false, kOutputModeSurfaceYuv⟩,
        setFlagsThrows := false, initOutputBufferThrows := false,
        initFrameOk := true, initFrameThrows := false }).jni_status_code =
          kJniStatusHighBitDepthNotSupportedWithYuv) :=
  ⟨by decide, high_bit_depth_rejected_before_mode_branch ⟨0, 0, some (), true⟩
    { getPictureResult := 0,
      pic := ⟨1920, 1080, 10, false, kOutputModeSurfaceYuv⟩,
      setFlagsThrows := false, initOutputBufferThrows := false,
      initFrameOk := true, initFrameThrows := false }
    rfl rfl rfl rfl (by decide)⟩

/-! ### Claim C10 — dav1dReleaseFrame is idempotent per buffer -/

/-- C10: `dav1dReleaseFrame` stores 0 into the buffer's `decoderPrivate`
field before disposing the picture it read, so a second call on the same
buffer reads a null picture pointer and performs no disposal: the picture
is unreferenced and deleted at most once. -/
theorem release_frame_idempotent (ctx : JniContext) (b : OutputBuffer) :
    dav1dReleaseFrame (.live ctx) b = some (dav1dReleaseFrameRun b) ∧
    (dav1dReleaseFrameRun b).1.decoderPrivate = 0 ∧
    (dav1dReleaseFrameRun (dav1dReleaseFrameRun b).1).2 = false := by
  exact ⟨rfl, rfl, rfl⟩

end Dav1dJni
